import Mathlib

/-
Verification of the limit package (an HTTP round-tripper that rate limits
outgoing requests with a leaky bucket backed by a shared redis counter).

The model is a shallow embedding of the two source files:
  limit.go       header stamping and the rate-limiting RoundTrip wrapper
  redis/redis.go the redis-backed Bucket with Consume, drain and NewBucket

Time is modelled as integer milliseconds.  The redis store holds at most the
one key the bucket uses, as a counter value together with an optional
expiry instant (none meaning the key has no TTL).  The optimistic redis
transaction serializes all accesses to that single key, so a run of
concurrent Consume calls is modelled as the sequence of their transaction
bodies; store faults that the code checks are injected explicitly.
-/

/- ===== limit.go ===== -/

/- Header name constants.  In the source the reset constant reuses the
   string of the limit constant; the model reproduces that verbatim. -/

def xRateLimit : String := "X-Rate-Limit-Limit"

def xRateLimitRemaining : String := "X-Rate-Limit-Remaining"

def xRateLimitRest : String := "X-Rate-Limit-Limit"

/- limit.State: a bucket state snapshot.  Reset is an absolute time in
   milliseconds. -/

structure State where
  Capacity : Int
  Space : Int
  Reset : Int
deriving DecidableEq

/- http.Header modelled as an association list; Set replaces any existing
   entry under the same name. -/

abbrev Headers := List (String × String)

def headerSet (h : Headers) (k v : String) : Headers :=
  h.filter (fun p => p.1 ≠ k) ++ [(k, v)]

def headerGet (h : Headers) (k : String) : Option String :=
  (h.find? (fun p => p.1 = k)).map (fun p => p.2)

/- State.setXRateHeaders: stamps the three Set calls of the source, in
   source order.  The reset value is int(now.Sub(s.Reset).Seconds()),
   truncation toward zero, hence Int.tdiv on milliseconds. -/

def setXRateHeaders (s : State) (now : Int) (h : Headers) : Headers :=
  let h1 := headerSet h xRateLimit (toString s.Capacity)
  let h2 := headerSet h1 xRateLimitRemaining (toString s.Space)
  let remaining := (now - s.Reset).tdiv 1000
  headerSet h2 xRateLimitRest (toString remaining)

/- Errors returned by a limit.Bucket implementation: the sentinel
   ErrToManyRequests, or any other error carrying a message. -/

inductive LimitErr where
  | tooMany
  | other (msg : String)
deriving DecidableEq

/- http.Response, with the fields RoundTrip reads or writes. -/

structure Response where
  status : String
  statusCode : Int
  headers : Headers
  body : String
deriving DecidableEq

/- The request payload is not inspected by the limiter. -/

abbrev Request := String

/- Transport.RoundTrip.  The bucket is the limit.Bucket interface value
   (amount to consume, to state and optional error); tr is the Transport
   field and dflt stands for http.DefaultTransport, used when tr is nil;
   the downstream round trip is a function from requests to a response or
   an error. -/

def roundTrip (bucket : Int → State × Option LimitErr)
    (tr : Option (Request → Except String Response))
    (dflt : Request → Except String Response)
    (now : Int) (req : Request) : Except String Response :=
  let transport := tr.getD dflt
  let r := bucket 1
  let state := r.1
  match r.2 with
  | some LimitErr.tooMany =>
      Except.ok { status := ("Too Many Requests"), statusCode := 429,
                  headers := setXRateHeaders state now [], body := ("") }
  | some (LimitErr.other e) => Except.error e
  | none =>
      match transport req with
      | Except.error e => Except.error e
      | Except.ok resp =>
          Except.ok { resp with headers := setXRateHeaders state now resp.headers }

/- ===== redis/redis.go ===== -/

/- The store: the single key the bucket uses, as an optional pair of the
   counter value and an optional expiry instant (none means no TTL). -/

structure Store where
  val : Option (Int × Option Int)
deriving DecidableEq

/- GET: a key whose expiry has passed is absent. -/

def storeLive (st : Store) (now : Int) : Option Int :=
  match st.val with
  | none => none
  | some (v, none) => some v
  | some (v, some e) => if now < e then some v else none

/- SET key v with expiration ttl; a non-positive ttl means no expiration. -/

def storeSet (v ttl now : Int) : Store :=
  ⟨some (v, if ttl ≤ 0 then none else some (now + ttl))⟩

/- PTTL: -2 when the key is absent (or expired), -1 when it has no TTL,
   otherwise the remaining milliseconds. -/

def storePttl (st : Store) (now : Int) : Int :=
  match st.val with
  | none => -2
  | some (_, none) => -1
  | some (_, some e) => if now < e then e - now else -2

/- INCRBY: increments a live key keeping its TTL; creates an absent key
   with the increment amount and no TTL. -/

def storeIncr (st : Store) (amt now : Int) : Int × Store :=
  match st.val with
  | some (v, some e) =>
      if now < e then (v + amt, ⟨some (v + amt, some e)⟩)
      else (amt, ⟨some (amt, none)⟩)
  | some (v, none) => (v + amt, ⟨some (v + amt, none)⟩)
  | none => (amt, ⟨some (amt, none)⟩)

/- redis.Bucket: the key, the immutable capacity and rate (window, in
   milliseconds), and the mutex-guarded cached space and reset fields. -/

structure Bucket where
  key : String
  capacity : Int
  space : Int
  reset : Int
  rate : Int
deriving DecidableEq

/- Injected store faults for the two store calls made by drain: the PTTL
   query and the reset SET.  true means that call fails. -/

structure DrainFaults where
  pttlErr : Bool
  setErr : Bool
deriving DecidableEq

def noFaults : DrainFaults := ⟨false, false⟩

/- Bucket.drain.  Returns the updated bucket and store and whether an
   error was returned.  On the reset branch the source still assigns
   b.reset from the stale pttl value it read before the SET. -/

def drain (b : Bucket) (st : Store) (now : Int) (f : DrainFaults) :
    Bucket × Store × Bool :=
  if f.pttlErr then (b, st, true)
  else
    let p := storePttl st now
    if p < 1 then
      if f.setErr then (b, st, true)
      else ({ b with reset := now + p }, storeSet 0 b.rate now, false)
    else ({ b with reset := now + p }, st, false)

/- Bucket.Consume.  gf injects a non-Nil error on the initial GET (the
   source returns it from the transaction); a missing key is created
   to 0 with TTL b.rate and the read value 0 is used.  The drain results
   are discarded at every call site, as in the source. -/

def consume (b : Bucket) (st : Store) (now amt : Int)
    (gf : Option String) (f : DrainFaults) : Bucket × Store × Option LimitErr :=
  match gf with
  | some m => (b, st, some (LimitErr.other m))
  | none =>
    let gr :=
      match storeLive st now with
      | some v => (v, st)
      | none => ((0 : Int), storeSet 0 b.rate now)
    let n := gr.1
    let st1 := gr.2
    if b.capacity ≤ n then
      let d := drain b st1 now f
      (d.1, d.2.1, some LimitErr.tooMany)
    else
      let ir := storeIncr st1 amt now
      let count := ir.1
      let st2 := ir.2
      if b.capacity < count then
        let d := drain b st2 now f
        (d.1, d.2.1, some LimitErr.tooMany)
      else
        let b1 := { b with space := b.capacity - count }
        let d := drain b1 st2 now f
        (d.1, d.2.1, none)

/- Bucket.state: the snapshot returned to the caller. -/

def Bucket.state (b : Bucket) : State :=
  ⟨b.capacity, b.space, b.reset⟩

/- The full return value of Consume: the snapshot taken after the
   transaction, and the transaction error. -/

def consumeRet (b : Bucket) (st : Store) (now amt : Int)
    (gf : Option String) (f : DrainFaults) : State × Option LimitErr :=
  let r := consume b st now amt gf f
  (r.1.state, r.2.2)

/- redis.Config. -/

structure Config where
  AppKey : String
  RedisAddr : String
  RedisPwd : String
  RedisDB : Int
  RequestLimit : Int
  LimitDuration : Int
deriving DecidableEq

/- NewBucket.  ping is the result of the fail-fast liveness check against
   the store (some e models a failing Ping returning error e).  The ping
   is checked before the AppKey; RequestLimit and LimitDuration are not
   validated. -/

def NewBucket (ping : Option String) (cfg : Config) : Except String Bucket :=
  match ping with
  | some e => Except.error e
  | none =>
    if cfg.AppKey = ("") then Except.error ("please provide appkey")
    else Except.ok { key := cfg.AppKey, capacity := cfg.RequestLimit,
                     space := 0, reset := 0, rate := cfg.LimitDuration }

/- A run of n sequential Consume(1) transaction bodies at one instant,
   fault free: the serialization the single-key optimistic transaction
   provides to any set of concurrent callers. -/

def runConsume (b : Bucket) (st : Store) (now : Int) :
    Nat → List (Option LimitErr) × Bucket × Store
  | 0 => ([], b, st)
  | Nat.succ k =>
    let r := consume b st now 1 none noFaults
    let rest := runConsume r.1 r.2.1 now k
    (r.2.2 :: rest.1, rest.2)

/- Headers of a round trip result, empty on error. -/

def exceptHeaders : Except String Response → Headers
  | Except.ok r => r.headers
  | Except.error _ => []

/- ===== theorems ===== -/

/-- C3 counterexample: with Capacity 2 and a rejecting bucket, the
synthesized 429 response does not carry the capacity header value: the
name X-Rate-Limit-Limit holds the reset value "-9" rather than "2",
because the reset header constant reuses the capacity header name, so only
two of the claimed three rate-limit headers survive on the response. -/
theorem claimC3_counterexample :
    headerGet
      (exceptHeaders
        (roundTrip (fun _ => (⟨2, 0, 9000⟩, some LimitErr.tooMany))
          none (fun _ => Except.error ("net")) 0 ("req")))
      xRateLimit = some ("-9") ∧
    some ("-9") ≠ some (toString (2 : Int)) := by
  decide

/-- C3 (amended): when the bucket rejects with ErrToManyRequests,
RoundTrip returns, with a nil error, a synthesized response with status
code 429 and empty body whose headers are exactly those stamped by
setXRateHeaders from the returned bucket state onto an empty header set
(two distinct names, since the capacity and reset headers share one
name); the downstream round tripper is never invoked, as the result does
not depend on it. -/
theorem claimC3 (bucket : Int → State × Option LimitErr)
    (tr : Option (Request → Except String Response))
    (dflt : Request → Except String Response)
    (now : Int) (req : Request) (s : State)
    (h : bucket 1 = (s, some LimitErr.tooMany)) :
    roundTrip bucket tr dflt now req =
      Except.ok { status := ("Too Many Requests"), statusCode := 429,
                  headers := setXRateHeaders s now [], body := ("") } := by
  simp only [roundTrip, h]

/-- C3 witness: the rejection branch at a concrete bucket state, with a
downstream transport present but unused. -/
theorem claimC3_witness :
    roundTrip (fun _ => (⟨2, 0, 9000⟩, some LimitErr.tooMany))
        (some (fun _ => Except.ok ⟨("OK"), 200, [], ("body")⟩))
        (fun _ => Except.error ("net")) 0 ("req") =
      Except.ok { status := ("Too Many Requests"), statusCode := 429,
                  headers := setXRateHeaders ⟨2, 0, 9000⟩ 0 [], body := ("") } :=
  claimC3 (fun _ => (⟨2, 0, 9000⟩, some LimitErr.tooMany))
    (some (fun _ => Except.ok ⟨("OK"), 200, [], ("body")⟩))
    (fun _ => Except.error ("net")) 0 ("req") ⟨2, 0, 9000⟩ rfl

/-- C4: when the bucket fails with any error other than ErrToManyRequests,
RoundTrip propagates that error unchanged with no response, and the
downstream round tripper is never invoked: the result does not depend on
the transport arguments. -/
theorem claimC4 (bucket : Int → State × Option LimitErr)
    (tr : Option (Request → Except String Response))
    (dflt : Request → Except String Response)
    (now : Int) (req : Request) (s : State) (e : String)
    (h : bucket 1 = (s, some (LimitErr.other e))) :
    roundTrip bucket tr dflt now req = Except.error e := by
  simp only [roundTrip, h]

/-- C4 witness: a store fault at a concrete input is propagated unchanged
while a working downstream transport is present but unused. -/
theorem claimC4_witness :
    roundTrip (fun _ => (⟨2, 1, 9000⟩, some (LimitErr.other ("redis down"))))
        (some (fun _ => Except.ok ⟨("OK"), 200, [], ("body")⟩))
        (fun _ => Except.ok ⟨("OK"), 200, [], ("body")⟩) 0 ("req") =
      Except.error ("redis down") :=
  claimC4 (fun _ => (⟨2, 1, 9000⟩, some (LimitErr.other ("redis down"))))
    (some (fun _ => Except.ok ⟨("OK"), 200, [], ("body")⟩))
    (fun _ => Except.ok ⟨("OK"), 200, [], ("body")⟩) 0 ("req")
    ⟨2, 1, 9000⟩ ("redis down") rfl

/-- C10: with a nil Transport field, RoundTrip behaves exactly as it does
with the default transport filled in: accepted requests are forwarded
through the default transport and the bucket is consulted identically. -/
theorem claimC10 (bucket : Int → State × Option LimitErr)
    (dflt : Request → Except String Response) (now : Int) (req : Request) :
    roundTrip bucket none dflt now req = roundTrip bucket (some dflt) dflt now req := by
  rfl

/-- C6 code_bug: for a state whose Reset lies 5 seconds in the future of
now, the value stamped under the reset header name is "-5": the source
computes now minus Reset, the negation of the claimed seconds until
ResetAt, which here is 5 and nonnegative. -/
theorem claimC6_bug :
    headerGet (setXRateHeaders ⟨2, 0, 5000⟩ 0 []) xRateLimitRest = some ("-5") ∧
    (5000 - (0 : Int)).tdiv 1000 = 5 := by
  decide

/-- C7 code_bug: the reset header constant is the same string as the
capacity header constant, so a stamped header set carries only the two
distinct names remaining and limit, not three: stamping Capacity 7,
Space 3 leaves no header holding "7". -/
theorem claimC7_bug :
    xRateLimitRest = xRateLimit ∧
    (setXRateHeaders ⟨7, 3, 1000⟩ 0 []).map Prod.fst =
      [xRateLimitRemaining, xRateLimit] ∧
    headerGet (setXRateHeaders ⟨7, 3, 1000⟩ 0 []) xRateLimit = some ("-1") := by
  decide

/- Scenario of C2: a fresh bucket with Capacity 2 and Window 1000 ms over
   a fresh store, four sequential unit consumes at 0, 200, 400 and, after
   the window established at time 0 has elapsed at time 1000, at 1500. -/

def c2b0 : Bucket := ⟨("app"), 2, 0, 0, 1000⟩

def c2r1 : Bucket × Store × Option LimitErr := consume c2b0 ⟨none⟩ 0 1 none noFaults

def c2r2 : Bucket × Store × Option LimitErr :=
  consume c2r1.1 c2r1.2.1 200 1 none noFaults

def c2r3 : Bucket × Store × Option LimitErr :=
  consume c2r2.1 c2r2.2.1 400 1 none noFaults

def c2r4 : Bucket × Store × Option LimitErr :=
  consume c2r3.1 c2r3.2.1 1500 1 none noFaults

/-- C2: with Capacity 2 and a 1 s window, three sequential unit consumes
on a fresh scope return success with Space 1, success with Space 0, and
ErrToManyRequests with Space 0; the window set at the first call expires
at 1000 ms, and a fourth consume after it (at 1500 ms) returns success
with Space 1 again. -/
theorem claimC2 :
    c2r1.2.2 = none ∧ (c2r1.1).state.Space = 1 ∧
    c2r2.2.2 = none ∧ (c2r2.1).state.Space = 0 ∧
    c2r3.2.2 = some LimitErr.tooMany ∧ (c2r3.1).state.Space = 0 ∧
    c2r4.2.2 = none ∧ (c2r4.1).state.Space = 1 ∧
    storeLive c2r3.2.1 1500 = none := by
  decide

/- Overflow trace of C5: Capacity 3, one successful unit consume caches
   Space 2, then a consume of 4 units reads counter 1, increments it to 5,
   detects the overflow and rejects. -/

def c5b0 : Bucket := ⟨("app"), 3, 0, 0, 1000⟩

def c5r1 : Bucket × Store × Option LimitErr := consume c5b0 ⟨none⟩ 0 1 none noFaults

def c5r2 : Bucket × Store × Option LimitErr :=
  consume c5r1.1 c5r1.2.1 0 4 none noFaults

/-- C5 counterexample: on the overflow path (post-increment counter 5
exceeds Capacity 3) Consume returns ErrToManyRequests, but the returned
state still has Space 2, the value cached by the earlier successful
consume, not 0 as claimed. -/
theorem claimC5_counterexample :
    c5r1.2.1.val = some (1, some 1000) ∧
    c5r2.2.1.val = some (5, some 1000) ∧
    c5r2.2.2 = some LimitErr.tooMany ∧
    (c5r2.1).state.Space = 2 ∧ (2 : Int) ≠ 0 := by
  decide

/- Drain never touches the cached space field. -/

theorem drain_space (b : Bucket) (st : Store) (now : Int) (f : DrainFaults) :
    ((drain b st now f).1).space = b.space := by
  unfold drain
  dsimp only
  split_ifs <;> rfl

/-- C5 (amended): whenever the post-increment counter exceeds Capacity
(read value below capacity, incremented value above it), Consume returns
ErrToManyRequests with the Space field of the returned state unchanged
from the value cached before the call, which is updated only by
successful consumes; it is not reset to 0. -/
theorem claimC5 (b : Bucket) (st : Store) (now amt n e : Int) (f : DrainFaults)
    (hv : st.val = some (n, some e)) (ht : now < e)
    (hn : n < b.capacity) (hov : b.capacity < n + amt) :
    (consumeRet b st now amt none f).2 = some LimitErr.tooMany ∧
    (consumeRet b st now amt none f).1.Space = b.space := by
  have hlive : storeLive st now = some n := by
    simp [storeLive, hv, ht]
  have hincr : storeIncr st amt now = (n + amt, ⟨some (n + amt, some e)⟩) := by
    simp [storeIncr, hv, ht]
  have hcap : ¬ b.capacity ≤ n := not_le.mpr hn
  simp only [consumeRet, consume, Bucket.state, hlive, hincr, if_neg hcap, if_pos hov]
  exact ⟨trivial, drain_space b ⟨some (n + amt, some e)⟩ now f⟩

/-- C5 witness: a bucket with Capacity 3 and cached Space 2 over a live
counter of 1; consuming 4 overflows and the rejection carries Space 2. -/
theorem claimC5_witness :
    (consumeRet ⟨("app"), 3, 2, 0, 1000⟩ ⟨some (1, some 1000)⟩ 0 4 none noFaults).2 =
        some LimitErr.tooMany ∧
    (consumeRet ⟨("app"), 3, 2, 0, 1000⟩ ⟨some (1, some 1000)⟩ 0 4 none noFaults).1.Space =
        (Bucket.mk ("app") 3 2 0 1000).space :=
  claimC5 ⟨("app"), 3, 2, 0, 1000⟩ ⟨some (1, some 1000)⟩ 0 4 1 1000 noFaults
    rfl (by decide) (by decide) (by decide)

/-- C9: the error outcome of a single Consume call never depends on the
drain faults: for any two fault injections on the store calls drain makes,
Consume returns the same success, ErrToManyRequests, or store error; in
particular a drain error is never returned from Consume. -/
theorem claimC9 (b : Bucket) (st : Store) (now amt : Int) (gf : Option String)
    (f g : DrainFaults) :
    (consume b st now amt gf f).2.2 = (consume b st now amt gf g).2.2 := by
  unfold consume
  cases gf with
  | some m => rfl
  | none =>
    simp only []
    split
    · rfl
    · split
      · rfl
      · rfl

/- Configuration with empty validation gaps used against C8. -/

def c8cfgBad : Config := ⟨("app"), ("localhost:6379"), (""), 0, 0, 0⟩

/-- C8 counterexample: with a passing liveness check, a non-empty key but
RequestLimit 0 and LimitDuration 0 (both non-positive), NewBucket
succeeds and returns a bucket, instead of failing with a configuration
error as claimed: capacity and window are never validated. -/
theorem claimC8_counterexample :
    NewBucket none c8cfgBad = Except.ok ⟨("app"), 0, 0, 0, 0⟩ ∧
    c8cfgBad.RequestLimit ≤ 0 ∧ c8cfgBad.LimitDuration ≤ 0 := by
  exact ⟨rfl, by decide, by decide⟩

/-- C8 (amended): NewBucket fails with the liveness error when the
fail-fast ping against the store fails (checked before anything else);
otherwise it fails with the configuration error exactly when the key is
the empty string; RequestLimit and LimitDuration are not validated, and
in every remaining case it returns a bucket holding the configured key,
capacity and window, with zeroed cached fields. -/
theorem claimC8 (ping : Option String) (cfg : Config) :
    (∀ e, ping = some e → NewBucket ping cfg = Except.error e) ∧
    (ping = none → cfg.AppKey = ("") →
      NewBucket ping cfg = Except.error ("please provide appkey")) ∧
    (ping = none → cfg.AppKey ≠ ("") →
      NewBucket ping cfg =
        Except.ok ⟨cfg.AppKey, cfg.RequestLimit, 0, 0, cfg.LimitDuration⟩) := by
  refine ⟨fun e he => ?_, fun hp hk => ?_, fun hp hk => ?_⟩
  · simp [NewBucket, he]
  · simp [NewBucket, hp, hk]
  · simp [NewBucket, hp, hk]

/-- C8 witness: a passing ping with key "app", capacity 2 and window
1000 ms yields a bucket with exactly those fields. -/
theorem claimC8_witness :
    NewBucket none ⟨("app"), ("localhost:6379"), (""), 0, 2, 1000⟩ =
      Except.ok ⟨("app"), 2, 0, 0, 1000⟩ :=
  (claimC8 none ⟨("app"), ("localhost:6379"), (""), 0, 2, 1000⟩).2.2 rfl (by decide)

/- ===== counting run for C1 ===== -/

/- One consume step on a live counter at or above capacity: rejection,
   the store untouched, only the cached reset refreshed. -/

theorem consume_live_reject (b : Bucket) (st : Store) (now m e : Int)
    (hv : st.val = some (m, some e)) (ht : now < e) (hm : b.capacity ≤ m) :
    consume b st now 1 none noFaults =
      ({ b with reset := e }, st, some LimitErr.tooMany) := by
  have hlive : storeLive st now = some m := by simp [storeLive, hv, ht]
  have hp : storePttl st now = e - now := by simp [storePttl, hv, ht]
  have hp1 : ¬ (e - now < 1) := by omega
  have he : now + (e - now) = e := by omega
  simp [consume, hlive, hm, drain, noFaults, hp, hp1, he]

/- One consume step on a live counter below capacity: success, the
   counter incremented in place, space and reset refreshed. -/

theorem consume_live_accept (b : Bucket) (st : Store) (now m e : Int)
    (hv : st.val = some (m, some e)) (ht : now < e) (hm : m < b.capacity) :
    consume b st now 1 none noFaults =
      ({ b with space := b.capacity - (m + 1), reset := e },
        ⟨some (m + 1, some e)⟩, none) := by
  have hlive : storeLive st now = some m := by simp [storeLive, hv, ht]
  have hincr : storeIncr st 1 now = (m + 1, ⟨some (m + 1, some e)⟩) := by
    simp [storeIncr, hv, ht]
  have hcap : ¬ b.capacity ≤ m := not_le.mpr hm
  have hov : ¬ b.capacity < m + 1 := by omega
  have hp : storePttl (⟨some (m + 1, some e)⟩ : Store) now = e - now := by
    simp [storePttl, ht]
  have hp1 : ¬ (e - now < 1) := by omega
  have he : now + (e - now) = e := by omega
  simp [consume, hlive, hincr, hcap, hov, drain, noFaults, hp, hp1, he]

/- The first consume on a fresh store creates the counter at 0 with a
   window-length TTL; with capacity at most 0 it then rejects at once. -/

theorem consume_fresh_reject (b : Bucket) (now : Int)
    (hr : 1 ≤ b.rate) (hcap : b.capacity ≤ 0) :
    consume b ⟨none⟩ now 1 none noFaults =
      ({ b with reset := now + b.rate },
        ⟨some (0, some (now + b.rate))⟩, some LimitErr.tooMany) := by
  have h0 : ¬ b.rate ≤ 0 := by omega
  have h1 : now < now + b.rate := by omega
  have h2 : ¬ (now + b.rate - now < 1) := by omega
  have h3 : now + (now + b.rate - now) = now + b.rate := by omega
  simp [consume, storeLive, storeSet, h0, h1, drain, noFaults, storePttl, h2,
    h3, hcap]

/- The first consume on a fresh store with positive capacity: the counter
   is created, incremented to 1 and the call succeeds. -/

theorem consume_fresh_accept (b : Bucket) (now : Int)
    (hr : 1 ≤ b.rate) (hcap : 1 ≤ b.capacity) :
    consume b ⟨none⟩ now 1 none noFaults =
      ({ b with space := b.capacity - 1, reset := now + b.rate },
        ⟨some (1, some (now + b.rate))⟩, none) := by
  have h0 : ¬ b.rate ≤ 0 := by omega
  have h1 : now < now + b.rate := by omega
  have hc : ¬ b.capacity ≤ 0 := by omega
  have hc1 : ¬ b.capacity < 1 := by omega
  have hr1 : ¬ b.rate < 1 := by omega
  have h2 : ¬ (now + b.rate - now < 1) := by omega
  have h3 : now + (now + b.rate - now) = now + b.rate := by omega
  simp [consume, storeLive, storeSet, storeIncr, h0, h1, hc, hc1, hr1, drain,
    noFaults, storePttl, h2, h3]

/- List cosmetics for peeling one successful step off the run shape. -/

theorem replicate_min_succ (k t : Nat) (x : Option LimitErr) :
    List.replicate (min (k + 1) (t + 1)) (none : Option LimitErr) ++
      List.replicate ((k + 1) - (t + 1)) x =
    none :: (List.replicate (min k t) none ++ List.replicate (k - t) x) := by
  have h1 : min (k + 1) (t + 1) = min k t + 1 := Nat.succ_min_succ k t
  have h2 : (k + 1) - (t + 1) = k - t := Nat.succ_sub_succ k t
  rw [h1, h2, List.replicate_succ, List.cons_append]

/- The run from a live counter m with an unexpired window: the first
   cap - m calls succeed, every later call is rejected. -/

theorem runConsume_live (cap : Int) (k : Nat) :
    ∀ (b : Bucket) (st : Store) (m e now : Int),
      b.capacity = cap → st.val = some (m, some e) → now < e → 0 ≤ m →
      (runConsume b st now k).1 =
        List.replicate (min k (cap - m).toNat) none ++
        List.replicate (k - (cap - m).toNat) (some LimitErr.tooMany) := by
  induction k with
  | zero =>
    intro b st m e now hb hv ht hm
    simp [runConsume]
  | succ k ih =>
    intro b st m e now hb hv ht hm
    by_cases hcm : cap ≤ m
    · have h1 : consume b st now 1 none noFaults =
          ({ b with reset := e }, st, some LimitErr.tooMany) :=
        consume_live_reject b st now m e hv ht (by omega)
      have h0 : (cap - m).toNat = 0 := by omega
      simp only [runConsume, h1]
      rw [ih { b with reset := e } st m e now hb hv ht hm]
      simp [h0, List.replicate_succ]
    · push_neg at hcm
      have h1 : consume b st now 1 none noFaults =
          ({ b with space := b.capacity - (m + 1), reset := e },
            ⟨some (m + 1, some e)⟩, none) :=
        consume_live_accept b st now m e hv ht (by omega)
      simp only [runConsume, h1]
      rw [ih { b with space := b.capacity - (m + 1), reset := e }
        (⟨some (m + 1, some e)⟩ : Store) (m + 1) e now hb rfl ht (by omega)]
      have h2 : (cap - m).toNat = (cap - (m + 1)).toNat + 1 := by omega
      rw [h2, replicate_min_succ]

/-- C1: for a fresh scope with nonnegative Capacity C and positive window,
n serialized unit consumes at one instant (the serialization the optimistic
single-key store transaction imposes on any concurrent interleaving)
return success exactly min n C times followed by ErrToManyRequests for the
remaining n - C calls: no call is double-accepted and none is wrongly
rejected. -/
theorem claimC1 (key : String) (cap rate now : Int) (n : Nat)
    (hc : 0 ≤ cap) (hr : 1 ≤ rate) :
    (runConsume ⟨key, cap, 0, 0, rate⟩ ⟨none⟩ now n).1 =
      List.replicate (min n cap.toNat) none ++
      List.replicate (n - cap.toNat) (some LimitErr.tooMany) := by
  cases n with
  | zero => simp [runConsume]
  | succ k =>
    by_cases hcap : cap ≤ 0
    · have h0 : cap.toNat = 0 := by omega
      have h1 : consume ⟨key, cap, 0, 0, rate⟩ ⟨none⟩ now 1 none noFaults =
          ({ key := key, capacity := cap, space := 0, reset := now + rate,
             rate := rate },
            ⟨some (0, some (now + rate))⟩, some LimitErr.tooMany) :=
        consume_fresh_reject ⟨key, cap, 0, 0, rate⟩ now hr hcap
      simp only [runConsume, h1]
      rw [runConsume_live cap k _ _ 0 (now + rate) now rfl rfl (by omega) le_rfl]
      have h2 : (cap - 0).toNat = 0 := by omega
      simp [h0, h2, List.replicate_succ]
    · push_neg at hcap
      have h1 : consume ⟨key, cap, 0, 0, rate⟩ ⟨none⟩ now 1 none noFaults =
          ({ key := key, capacity := cap, space := cap - 1, reset := now + rate,
             rate := rate },
            ⟨some (1, some (now + rate))⟩, none) :=
        consume_fresh_accept ⟨key, cap, 0, 0, rate⟩ now hr
          (by show (1 : Int) ≤ cap; omega)
      simp only [runConsume, h1]
      rw [runConsume_live cap k _ _ 1 (now + rate) now rfl rfl (by omega)
        (by omega)]
      have h2 : cap.toNat = (cap - 1).toNat + 1 := by omega
      rw [h2, replicate_min_succ]

/-- C1 witness: Capacity 2, window 1000 ms, four unit consumes from a
fresh scope: the first two succeed and the last two are rejected. -/
theorem claimC1_witness :
    (runConsume ⟨("app"), 2, 0, 0, 1000⟩ ⟨none⟩ 0 4).1 =
      List.replicate (min 4 (2 : Int).toNat) none ++
      List.replicate (4 - (2 : Int).toNat) (some LimitErr.tooMany) :=
  claimC1 ("app") 2 1000 0 4 (by decide) (by decide)
